/-
  Verification of the settings composition and validation engine of
  `es-documentation-manager-mcp` (file `src/es_knowledge_base_mcp/models/settings.py`).

  The Python module is a pydantic-settings configuration surface.  We give a
  shallow embedding: each settings class becomes a Lean structure, each
  pydantic `model_validator` becomes an explicit `Except`-returning function,
  and the relied-upon behaviour of the Python standard library
  (`urllib.parse.urlparse`) and of pydantic (`SecretStr`, error propagation,
  `repr`/`str` rendering, `model_dump`) is modelled from those libraries'
  documented semantics, since the repository delegates to them.

  Machine integers do not overflow anywhere in the source (Python ints are
  unbounded), so numbers are `Int`/`Nat`.
-/
import Mathlib

namespace ESDocMCP

/-! ## Python truthiness and small helpers -/

/-- Python truthiness of an `Optional[str]`: `None` and `""` are falsy. -/
def truthyStr : Option String → Bool
  | none => false
  | some s => !(s == "")

/-- ASCII lowercase of a character, as Python `str.lower` acts on ASCII. -/
def asciiLower (c : Char) : Char :=
  if 'A' ≤ c ∧ c ≤ 'Z' then Char.ofNat (c.toNat + 32) else c

/-- ASCII lowercase of a string (the model covers ASCII input). -/
def pyLower (s : String) : String :=
  String.mk (s.toList.map asciiLower)

/-! ## `SecretStr`

pydantic's `SecretStr` wraps a plaintext string; `get_secret_value` returns
the plaintext; its display (used by `repr` and `str`) is the fixed placeholder
`**********` when the secret is non-empty and the empty string otherwise;
`__len__` is the length of the plaintext, so an empty secret is falsy. -/

structure SecretStr where
  secret : String
deriving DecidableEq, Repr

namespace SecretStr

/-- `SecretStr.get_secret_value`: the only accessor returning the plaintext. -/
def get_secret_value (s : SecretStr) : String := s.secret

/-- pydantic `_display`: `'**********' if self.get_secret_value() else ''`. -/
def display (s : SecretStr) : String :=
  if s.secret == "" then "" else "**********"

end SecretStr

/-- Python truthiness of an `Optional[SecretStr]` (via `SecretStr.__len__`). -/
def truthySecret : Option SecretStr → Bool
  | none => false
  | some s => !(s.secret == "")

/-! ## `ElasticsearchAuthenticationSettings` -/

structure ElasticsearchAuthenticationSettings where
  username : Option String
  password : Option SecretStr
  api_key : Option SecretStr
deriving DecidableEq, Repr

namespace ElasticsearchAuthenticationSettings

/-- The `model_validator(mode="after")` `validate_authentication`: raises
(`Except.error`) on the first violated rule, otherwise returns `self`. -/
def validate_authentication (a : ElasticsearchAuthenticationSettings) :
    Except String ElasticsearchAuthenticationSettings :=
  if truthySecret a.api_key && (truthyStr a.username || truthySecret a.password) then
    .error "Cannot use both API key and basic authentication."
  else if truthyStr a.username && !truthySecret a.password then
    .error "Username requires a password."
  else if truthySecret a.password && !truthyStr a.username then
    .error "Password requires a username."
  else
    .ok a

/-- Constructing the settings group from already-coerced field values: pydantic
populates the fields and then runs the after-validator. -/
def construct (username : Option String) (password api_key : Option SecretStr) :
    Except String ElasticsearchAuthenticationSettings :=
  validate_authentication ⟨username, password, api_key⟩

end ElasticsearchAuthenticationSettings

/-! ## Model of `urllib.parse.urlparse`

The accessors `host_port`, `host_scheme` and `host_name` delegate to CPython's
`urllib.parse.urlparse`; the model below follows `urlsplit`, `_hostinfo`,
`hostname` and `port` from CPython's `urllib/parse.py` for ASCII input.
Only `scheme` and `netloc` are retained (the path/query/fragment parts are
never consulted by the source).  One deliberate conservative deviation:
CPython accepts a bracketed authority (`[...]`) when the bracketed host is a
valid IPv6/IPvFuture address and raises `ValueError` otherwise; this model
raises on every bracketed authority, so every success of the model is a
success of CPython with the same components. -/

/-- Python `int(s, 10)` on a digit run: digits with single underscores allowed
only between digits (CPython literal-with-underscores rule). -/
def pyDigitsGo : List Char → Nat → Option Nat
  | [], acc => some acc
  | '_' :: rest, acc =>
    match rest with
    | c :: rest2 => if c.isDigit then pyDigitsGo rest2 (acc * 10 + (c.toNat - 48)) else none
    | [] => none
  | c :: rest, acc => if c.isDigit then pyDigitsGo rest (acc * 10 + (c.toNat - 48)) else none

/-- Parse a non-empty digit run (underscore rule as in CPython). -/
def pyDigits : List Char → Option Nat
  | c :: rest => if c.isDigit then pyDigitsGo rest (c.toNat - 48) else none
  | [] => none

/-- ASCII whitespace stripped by Python `int()`. -/
def isPySpace (c : Char) : Bool :=
  c == ' ' || c == '\t' || c == '\n' || c == '\r' || c == '\x0b' || c == '\x0c'

/-- Python `int(s, 10)`: strip whitespace, optional sign, digit run. -/
def pyInt (s : String) : Option Int :=
  let cs := (s.toList.dropWhile isPySpace).reverse.dropWhile isPySpace |>.reverse
  match cs with
  | '+' :: rest => (pyDigits rest).map Int.ofNat
  | '-' :: rest => (pyDigits rest).map (fun n => -(Int.ofNat n))
  | rest => (pyDigits rest).map Int.ofNat

/-- The `scheme`/`netloc` components of `urlsplit`'s result. -/
structure ParsedUrl where
  scheme : String
  netloc : String
deriving DecidableEq, Repr

/-- CPython `scheme_chars`: letters, digits, `+`, `-`, `.`. -/
def isSchemeChar (c : Char) : Bool :=
  c.isAlpha || c.isDigit || c == '+' || c == '-' || c == '.'

/-- Scheme extraction of `urlsplit`: a leading ASCII letter, scheme characters
up to the first `:`; on match the scheme is lowercased and removed. -/
def splitScheme (cs : List Char) : String × List Char :=
  match cs.findIdx? (· == ':') with
  | some i =>
    if 0 < i ∧ (cs.headD ' ').isAlpha ∧ (cs.take i).all isSchemeChar then
      (String.mk ((cs.take i).map asciiLower), cs.drop (i + 1))
    else ("", cs)
  | none => ("", cs)

/-- A character ending the netloc (CPython `_splitnetloc` delimiters). -/
def isNetlocDelim (c : Char) : Bool :=
  c == '/' || c == '?' || c == '#'

/-- Model of `urlsplit` restricted to `scheme`/`netloc`: WHATWG sanitisation
(strip leading C0-control-or-space, drop tab/CR/LF), scheme split, netloc
split after `//`, and the bracketed-authority check (see section comment). -/
def urlsplit (url : String) : Except String ParsedUrl :=
  let cs := (url.toList.dropWhile (fun c => c.toNat ≤ 32)).filter
    (fun c => !(c == '\t' || c == '\r' || c == '\n'))
  let (scheme, rest) := splitScheme cs
  if rest.take 2 = ['/', '/'] then
    let netloc := (rest.drop 2).takeWhile (fun c => !(isNetlocDelim c))
    if netloc.contains '[' || netloc.contains ']' then
      .error "Invalid IPv6 URL"
    else
      .ok ⟨scheme, String.mk netloc⟩
  else
    .ok ⟨scheme, ""⟩

/-- CPython `_hostinfo` (bracket-free case): the part after the last `@`,
split at the first `:` into host and port; an empty port string is `None`. -/
def hostinfo (netloc : String) : String × Option String :=
  let hi := ((netloc.toList.reverse.takeWhile (fun c => !(c == '@'))).reverse)
  let h := String.mk (hi.takeWhile (fun c => !(c == ':')))
  let rest := hi.dropWhile (fun c => !(c == ':'))
  match rest with
  | [] => (h, none)
  | _ :: p => if p.isEmpty then (h, none) else (h, some (String.mk p))

/-- CPython `SplitResult.hostname`: lowercased host, `None` when empty. -/
def urlHostname (netloc : String) : Option String :=
  let h := (hostinfo netloc).1
  if h == "" then none else some (pyLower h)

/-- Python `repr` of a string (model for strings free of quotes/backslashes,
which covers every string the source interpolates into an error). -/
def pyReprStr (s : String) : String := "'" ++ s ++ "'"

/-- CPython `SplitResult.port`: absent port is `None`; a port string that is
not an integer, or out of `0..65535`, raises `ValueError`. -/
def urlPort (netloc : String) : Except String (Option Nat) :=
  match (hostinfo netloc).2 with
  | none => .ok none
  | some ps =>
    match pyInt ps with
    | none => .error ("Port could not be cast to integer value as " ++ pyReprStr ps)
    | some p =>
      if 0 ≤ p ∧ p ≤ 65535 then .ok (some (Int.toNat p))
      else .error "Port out of range 0-65535"

/-! ## `ElasticsearchSettings` -/

/-- A value stored in one of the settings dictionaries built by
`_get_auth_dict`, `to_client_settings` and `to_crawler_settings`. -/
inductive SettingValue where
  | str : String → SettingValue
  | int : Int → SettingValue
  | bool : Bool → SettingValue
  | strList : List String → SettingValue
  | intTuple : List Int → SettingValue
  | strPair : String → String → SettingValue
deriving DecidableEq, Repr

structure ElasticsearchSettings where
  host : String
  request_timeout : Int
  index_prefix : String
  bulk_api_max_items : Int
  bulk_api_max_size_bytes : Int
  authentication : ElasticsearchAuthenticationSettings
deriving DecidableEq, Repr

namespace ElasticsearchSettings

/-- The `model_validator(mode="after")` `validate_host`: its body is just
`return self` — no check is performed. -/
def validate_host (s : ElasticsearchSettings) : Except String ElasticsearchSettings :=
  .ok s

/-- Constructing the settings group from already-coerced field values: pydantic
populates the fields and runs the after-validator.  A previously constructed
`authentication` instance is not revalidated (pydantic default). -/
def construct (host : String) (request_timeout : Int) ( index_prefix : String)
    (bulk_api_max_items bulk_api_max_size_bytes : Int)
    (authentication : ElasticsearchAuthenticationSettings) :
    Except String ElasticsearchSettings :=
  validate_host ⟨host, request_timeout, index_prefix, bulk_api_max_items,
    bulk_api_max_size_bytes, authentication⟩

/-- Property `host_port`: `parsed_url.port if parsed_url.port else 443 if
parsed_url.scheme == "https" else 80` (note Python truthiness on the port). -/
def host_port (s : ElasticsearchSettings) : Except String Nat := do
  let u ← urlsplit s.host
  let po ← urlPort u.netloc
  match po with
  | some n =>
    if n == 0 then pure (if u.scheme == "https" then 443 else 80) else pure n
  | none => pure (if u.scheme == "https" then 443 else 80)

/-- Property `host_scheme`: `urlparse(self.host).scheme`. -/
def host_scheme (s : ElasticsearchSettings) : Except String String :=
  (urlsplit s.host).map (·.scheme)

/-- Property `host_name`: `urlparse(self.host).hostname`. -/
def host_name (s : ElasticsearchSettings) : Except String (Option String) :=
  (urlsplit s.host).map (fun u => urlHostname u.netloc)

/-- Property `index_pattern`: `f"{self.index_prefix}-*"`. -/
def index_pattern (s : ElasticsearchSettings) : String :=
  s.index_prefix ++ "-*"

/-- Method `_get_auth_dict`: `api_key` if truthy, else `basic_auth` if both
`username` and `password` are truthy, else an empty dict (plus a warning). -/
def get_auth_dict (s : ElasticsearchSettings) : List (String × SettingValue) :=
  if truthySecret s.authentication.api_key then
    [("api_key", .str ((s.authentication.api_key.getD ⟨""⟩).get_secret_value))]
  else if truthyStr s.authentication.username && truthySecret s.authentication.password then
    [("basic_auth", .strPair (s.authentication.username.getD "")
      ((s.authentication.password.getD ⟨""⟩).get_secret_value))]
  else
    []

/-- Method `to_client_settings`: the fixed connection entries merged (`**`)
with `_get_auth_dict` (whose keys are disjoint from the fixed ones). -/
def to_client_settings (s : ElasticsearchSettings) : List (String × SettingValue) :=
  [("hosts", .strList [s.host]),
   ("request_timeout", .int s.request_timeout),
   ("http_compress", .bool true),
   ("retry_on_status", .intTuple [408, 429, 502, 503, 504]),
   ("retry_on_timeout", .bool true),
   ("max_retries", .int 5)] ++ s.get_auth_dict

/-- Method `to_crawler_settings`: includes `host_port`, which can raise. -/
def to_crawler_settings (s : ElasticsearchSettings) :
    Except String (List (String × SettingValue)) := do
  let p ← s.host_port
  pure ([("host", .str s.host),
         ("port", .int p),
         ("request_timeout", .int s.request_timeout),
         ("bulk_api.max_items", .int s.bulk_api_max_items),
         ("bulk_api.max_size_bytes", .int s.bulk_api_max_size_bytes)] ++ s.get_auth_dict)

end ElasticsearchSettings

/-! ## The remaining settings groups and the root aggregate -/

inductive Transport where
  | stdio
  | sse
deriving DecidableEq, Repr

structure TransportSettings where
  mcp_transport : Transport
deriving DecidableEq, Repr

structure LoggingSettings where
  log_level : String
  log_format : String
  log_file : Option String
deriving DecidableEq, Repr

structure KnowledgeBaseServerSettings where
  base_index_prefix : String
deriving DecidableEq, Repr

/-- Property `base_index_pattern`: `f"{self.base_index_prefix}*"`. -/
def KnowledgeBaseServerSettings.base_index_pattern (s : KnowledgeBaseServerSettings) : String :=
  s.base_index_prefix ++ "*"

structure LearnServerSettings where
  learn_index_prefix : String
deriving DecidableEq, Repr

/-- Property `learn_index_pattern`: `f"{self.learn_index_prefix}*"`. -/
def LearnServerSettings.learn_index_pattern (s : LearnServerSettings) : String :=
  s.learn_index_prefix ++ "*"

structure MemoryServerSettings where
  memory_index_prefix : String
deriving DecidableEq, Repr

/-- Property `memory_index_pattern`: `f"{self.memory_index_prefix}*"`. -/
def MemoryServerSettings.memory_index_pattern (s : MemoryServerSettings) : String :=
  s.memory_index_prefix ++ "*"

structure CrawlerSettings where
  elasticsearch_pipeline : String
  docker_image : String
deriving DecidableEq, Repr

/-- The root aggregate `DocsManagerSettings`: one instance of each group. -/
structure DocsManagerSettings where
  mcps : TransportSettings
  logging : LoggingSettings
  elasticsearch : ElasticsearchSettings
  knowledge_base : KnowledgeBaseServerSettings
  learn : LearnServerSettings
  memory : MemoryServerSettings
  crawler : CrawlerSettings
deriving DecidableEq, Repr

/-! ## Textual renderings and serialization

pydantic renders a model as `field=repr(value)` pairs — joined with `", "`
and wrapped in `ClassName(...)` for `repr`, joined with `" "` for `str` —
and nested model values with their `repr`.  A `SecretStr` value renders as
`SecretStr('**********')` (or `SecretStr('')` when the secret is empty), via
`SecretStr.display`.  `model_dump` serializes field values, but `password`
and `api_key` are declared with `exclude=True` and are absent from dumps. -/

/-- `repr` of an `Optional[str]` field value. -/
def optStrRepr : Option String → String
  | none => "None"
  | some s => pyReprStr s

/-- `repr` of an `Optional[SecretStr]` field value (placeholder display). -/
def optSecretRepr : Option SecretStr → String
  | none => "None"
  | some s => "SecretStr(" ++ pyReprStr s.display ++ ")"

/-- `repr` of the transport literal value. -/
def Transport.reprPy : Transport → String
  | .stdio => pyReprStr "stdio"
  | .sse => pyReprStr "sse"

/-- pydantic `repr` of `ElasticsearchAuthenticationSettings`. -/
def reprAuth (a : ElasticsearchAuthenticationSettings) : String :=
  "ElasticsearchAuthenticationSettings(username=" ++ optStrRepr a.username ++
    ", password=" ++ optSecretRepr a.password ++
    ", api_key=" ++ optSecretRepr a.api_key ++ ")"

/-- pydantic `repr` of `TransportSettings`. -/
def reprTransport (t : TransportSettings) : String :=
  "TransportSettings(mcp_transport=" ++ t.mcp_transport.reprPy ++ ")"

/-- pydantic `repr` of `LoggingSettings`. -/
def reprLogging (l : LoggingSettings) : String :=
  "LoggingSettings(log_level=" ++ pyReprStr l.log_level ++
    ", log_format=" ++ pyReprStr l.log_format ++
    ", log_file=" ++ optStrRepr l.log_file ++ ")"

/-- pydantic `repr` of `ElasticsearchSettings` (nested auth via its `repr`). -/
def reprElasticsearch (e : ElasticsearchSettings) : String :=
  "ElasticsearchSettings(host=" ++ pyReprStr e.host ++
    ", request_timeout=" ++ toString e.request_timeout ++
    ", index_prefix=" ++ pyReprStr e.index_prefix ++
    ", bulk_api_max_items=" ++ toString e.bulk_api_max_items ++
    ", bulk_api_max_size_bytes=" ++ toString e.bulk_api_max_size_bytes ++
    ", authentication=" ++ reprAuth e.authentication ++ ")"

/-- pydantic `repr` of `KnowledgeBaseServerSettings`. -/
def reprKnowledgeBase (k : KnowledgeBaseServerSettings) : String :=
  "KnowledgeBaseServerSettings(base_index_prefix=" ++ pyReprStr k.base_index_prefix ++ ")"

/-- pydantic `repr` of `LearnServerSettings`. -/
def reprLearn (l : LearnServerSettings) : String :=
  "LearnServerSettings(learn_index_prefix=" ++ pyReprStr l.learn_index_prefix ++ ")"

/-- pydantic `repr` of `MemoryServerSettings`. -/
def reprMemory (m : MemoryServerSettings) : String :=
  "MemoryServerSettings(memory_index_prefix=" ++ pyReprStr m.memory_index_prefix ++ ")"

/-- pydantic `repr` of `CrawlerSettings`. -/
def reprCrawler (c : CrawlerSettings) : String :=
  "CrawlerSettings(elasticsearch_pipeline=" ++ pyReprStr c.elasticsearch_pipeline ++
    ", docker_image=" ++ pyReprStr c.docker_image ++ ")"

/-- pydantic `str` of the whole settings tree (`str(DocsManagerSettings)`):
`field=repr(value)` pairs joined with a space, nested groups via `repr`. -/
def strDocsManagerSettings (t : DocsManagerSettings) : String :=
  "mcps=" ++ reprTransport t.mcps ++
    " logging=" ++ reprLogging t.logging ++
    " elasticsearch=" ++ reprElasticsearch t.elasticsearch ++
    " knowledge_base=" ++ reprKnowledgeBase t.knowledge_base ++
    " learn=" ++ reprLearn t.learn ++
    " memory=" ++ reprMemory t.memory ++
    " crawler=" ++ reprCrawler t.crawler

/-- pydantic `repr` of the whole settings tree. -/
def reprDocsManagerSettings (t : DocsManagerSettings) : String :=
  "DocsManagerSettings(mcps=" ++ reprTransport t.mcps ++
    ", logging=" ++ reprLogging t.logging ++
    ", elasticsearch=" ++ reprElasticsearch t.elasticsearch ++
    ", knowledge_base=" ++ reprKnowledgeBase t.knowledge_base ++
    ", learn=" ++ reprLearn t.learn ++
    ", memory=" ++ reprMemory t.memory ++
    ", crawler=" ++ reprCrawler t.crawler ++ ")"

/-- A value of a `model_dump` dictionary. -/
inductive DumpValue where
  | str : String → DumpValue
  | int : Int → DumpValue
  | null : DumpValue
  | dict : List (String × DumpValue) → DumpValue

/-- `model_dump` of the authentication group: `password` and `api_key` carry
`exclude=True`, so only `username` is serialized. -/
def dumpAuth (a : ElasticsearchAuthenticationSettings) : List (String × DumpValue) :=
  [("username", match a.username with | none => .null | some s => .str s)]

/-- Serialized (`model_dump`) view of `ElasticsearchSettings`, the only group
holding secrets; the nested authentication dump omits the secret fields. -/
def dumpElasticsearch (e : ElasticsearchSettings) : List (String × DumpValue) :=
  [("host", .str e.host),
   ("request_timeout", .int e.request_timeout),
   ("index_prefix", .str e.index_prefix),
   ("bulk_api_max_items", .int e.bulk_api_max_items),
   ("bulk_api_max_size_bytes", .int e.bulk_api_max_size_bytes),
   ("authentication", .dict (dumpAuth e.authentication))]

/-! ## Environment-driven construction

pydantic-settings populates each group from environment variables (via the
per-field aliases) at the moment the group's constructor runs.  In the
source module every group is instantiated eagerly as a `Field(default=...)`
expression, so the constructors run in module-definition order:
`ElasticsearchAuthenticationSettings()` first (the default of
`ElasticsearchSettings.authentication`, line 117), then — inside the
`DocsManagerSettings` class body — `TransportSettings()`,
`LoggingSettings()`, `ElasticsearchSettings()`, the three index-prefix
groups and `CrawlerSettings()`.  A constructor that fails raises
immediately (Python exception = `Except.error`), so the first failing
group aborts the whole load.  Integer coercion of environment strings is
modelled by Python `int()` via `pyInt`. -/

/-- The environment variables read by the settings module (alias table). -/
structure Env where
  mcp_transport : Option String
  mcp_log_level : Option String
  log_format : Option String
  log_file : Option String
  es_host : Option String
  es_request_timeout : Option String
  es_index_prefix : Option String
  es_bulk_api_max_items : Option String
  es_bulk_api_max_size_bytes : Option String
  es_username : Option String
  es_password : Option String
  es_api_key : Option String
  base_index_prefix : Option String
  kb_docs_index_prefix : Option String
  memory_index_prefix : Option String
  crawler_es_pipeline : Option String
  crawler_docker_image : Option String

/-- Coerce an optional environment string to an `int` field, falling back to
the field default when the variable is absent. -/
def coerceInt (raw : Option String) (dflt : Int) (field : String) : Except String Int :=
  match raw with
  | none => .ok dflt
  | some s =>
    match pyInt s with
    | some n => .ok n
    | none => .error ("Input should be a valid integer, unable to parse string as an integer: " ++ field)

/-- `ElasticsearchAuthenticationSettings()` from the environment. -/
def buildAuth (env : Env) : Except String ElasticsearchAuthenticationSettings :=
  ElasticsearchAuthenticationSettings.construct env.es_username
    (env.es_password.map SecretStr.mk) (env.es_api_key.map SecretStr.mk)

/-- `TransportSettings()` from the environment (`Literal["stdio", "sse"]`). -/
def buildTransport (env : Env) : Except String TransportSettings :=
  match env.mcp_transport with
  | none => .ok ⟨.stdio⟩
  | some s =>
    if s == "stdio" then .ok ⟨.stdio⟩
    else if s == "sse" then .ok ⟨.sse⟩
    else .error "Input should be 'stdio' or 'sse'"

/-- The default `log_format`, which interpolates `os.getpid()`. -/
def defaultLogFormat (pid : Nat) : String :=
  "%(asctime)s : " ++ toString pid ++ " - %(name)s - %(levelname)s - %(message)s"

/-- `LoggingSettings()` from the environment (free-form strings, no failure). -/
def buildLogging (env : Env) (pid : Nat) : LoggingSettings :=
  ⟨env.mcp_log_level.getD "INFO", env.log_format.getD (defaultLogFormat pid), env.log_file⟩

/-- `ElasticsearchSettings()` from the environment: integer fields are
coerced, then `validate_host` runs; the `authentication` default instance is
taken as already built. -/
def buildElasticsearch (env : Env) (auth : ElasticsearchAuthenticationSettings) :
    Except String ElasticsearchSettings := do
  let rt ← coerceInt env.es_request_timeout 600 "request_timeout"
  let bmi ← coerceInt env.es_bulk_api_max_items 200 "bulk_api_max_items"
  let bmb ← coerceInt env.es_bulk_api_max_size_bytes 10485760 "bulk_api_max_size_bytes"
  ElasticsearchSettings.construct (env.es_host.getD "https://localhost:9200") rt
    (env.es_index_prefix.getD "kbmcp-docs.*") bmi bmb auth

/-- Loading the settings module and constructing the root aggregate: group
constructors run in module-definition order and the first failure aborts. -/
def loadRoot (env : Env) (pid : Nat) : Except String DocsManagerSettings := do
  let auth ← buildAuth env
  let mcps ← buildTransport env
  let logging := buildLogging env pid
  let es ← buildElasticsearch env auth
  let kb : KnowledgeBaseServerSettings := ⟨env.base_index_prefix.getD "kbmcp-"⟩
  let learn : LearnServerSettings := ⟨env.kb_docs_index_prefix.getD "kbmcp-docs."⟩
  let memory : MemoryServerSettings := ⟨env.memory_index_prefix.getD "kbmcp-memories."⟩
  let crawler : CrawlerSettings := ⟨env.crawler_es_pipeline.getD "search-default-ingestion",
    env.crawler_docker_image.getD "ghcr.io/strawgate/es-crawler:main"⟩
  pure ⟨mcps, logging, es, kb, learn, memory, crawler⟩

/-! ## The operations of the settings tree

Every method and property the module defines on a constructed settings
tree, as a state-passing step: each returns its result together with the
(unchanged — no method body assigns to `self`) settings state.  Results are
wrapped in one sum type. -/

inductive OpResult where
  | natR : Except String Nat → OpResult
  | strR : Except String String → OpResult
  | optStrR : Except String (Option String) → OpResult
  | plainStr : String → OpResult
  | dictR : List (String × SettingValue) → OpResult
  | dictE : Except String (List (String × SettingValue)) → OpResult
  | authR : Except String ElasticsearchAuthenticationSettings → OpResult
  | esR : Except String ElasticsearchSettings → OpResult

/-- The operations callable on a constructed settings tree. -/
inductive Op where
  | hostPort
  | hostScheme
  | hostName
  | indexPattern
  | getAuthDict
  | toClientSettings
  | toCrawlerSettings
  | baseIndexPattern
  | learnIndexPattern
  | memoryIndexPattern
  | getPasswordSecret
  | getApiKeySecret
  | validateAuthentication
  | validateHost
  | configureLogging
  | renderStr

/-- Run one operation: the translation of each method reads fields and
computes a result; the source contains no assignment to `self`, so the
state component of every step is the incoming tree. -/
def runOp (op : Op) (t : DocsManagerSettings) : DocsManagerSettings × OpResult :=
  match op with
  | .hostPort => (t, .natR t.elasticsearch.host_port)
  | .hostScheme => (t, .strR t.elasticsearch.host_scheme)
  | .hostName => (t, .optStrR t.elasticsearch.host_name)
  | .indexPattern => (t, .plainStr t.elasticsearch.index_pattern)
  | .getAuthDict => (t, .dictR t.elasticsearch.get_auth_dict)
  | .toClientSettings => (t, .dictR t.elasticsearch.to_client_settings)
  | .toCrawlerSettings => (t, .dictE t.elasticsearch.to_crawler_settings)
  | .baseIndexPattern => (t, .plainStr t.knowledge_base.base_index_pattern)
  | .learnIndexPattern => (t, .plainStr t.learn.learn_index_pattern)
  | .memoryIndexPattern => (t, .plainStr t.memory.memory_index_pattern)
  | .getPasswordSecret =>
    (t, .plainStr ((t.elasticsearch.authentication.password.getD ⟨""⟩).get_secret_value))
  | .getApiKeySecret =>
    (t, .plainStr ((t.elasticsearch.authentication.api_key.getD ⟨""⟩).get_secret_value))
  | .validateAuthentication =>
    (t, .authR t.elasticsearch.authentication.validate_authentication)
  | .validateHost => (t, .esR t.elasticsearch.validate_host)
  | .configureLogging => (t, .plainStr t.logging.log_level)
  | .renderStr => (t, .plainStr (strDocsManagerSettings t))

/-- Run a sequence of operations, threading the settings state. -/
def runOps (ops : List Op) (t : DocsManagerSettings) : DocsManagerSettings :=
  ops.foldl (fun s op => (runOp op s).1) t

/-! ## Spec-side definitions

The following definitions transcribe the SPEC's words (§4.3 of `spec.md`),
to be compared with the functions modelled from the source.  The spec's
authentication-key selection is unordered ("exactly one of `{api_key}` or
`{basic_auth}` or neither"): each key is contributed exactly when its
method's credentials are set, with no `elif` priority. -/

/-- Spec §4.3: the authentication keys of the client view, worded as an
unordered union — `api_key` when `api_key` is set, `basic_auth` when
`username` and `password` are both set. -/
def clientAuthSpec (a : ElasticsearchAuthenticationSettings) : List (String × SettingValue) :=
  (if truthySecret a.api_key then
    [("api_key", .str ((a.api_key.getD ⟨""⟩).get_secret_value))]
   else []) ++
  (if truthyStr a.username && truthySecret a.password then
    [("basic_auth", .strPair (a.username.getD "") ((a.password.getD ⟨""⟩).get_secret_value))]
   else [])

/-- Spec §4.3: the full client-connection view. -/
def clientViewSpec (s : ElasticsearchSettings) : List (String × SettingValue) :=
  [("hosts", .strList [s.host]),
   ("request_timeout", .int s.request_timeout),
   ("http_compress", .bool true),
   ("retry_on_status", .intTuple [408, 429, 502, 503, 504]),
   ("retry_on_timeout", .bool true),
   ("max_retries", .int 5)] ++ clientAuthSpec s.authentication

/-! ## Secret shapes (for the redaction property)

The rendering of an `Optional[SecretStr]` field depends only on which of
three shapes the field has — absent, empty secret, non-empty secret — never
on the plaintext itself. -/

/-- The display shape of an optional secret: `0` absent, `1` empty, `2`
non-empty. -/
def secretShape : Option SecretStr → Nat
  | none => 0
  | some s => if s.secret == "" then 1 else 2

/-- Replace the two secret fields of a settings tree, everything else kept. -/
def setTreeSecrets (t : DocsManagerSettings) (pw ak : Option SecretStr) :
    DocsManagerSettings :=
  { t with elasticsearch :=
    { t.elasticsearch with authentication :=
      { t.elasticsearch.authentication with password := pw, api_key := ak } } }

/-! ## Helper lemmas -/

/-- When the host parses and its port is valid, `host_scheme` succeeds with
the parsed scheme. -/
theorem host_scheme_eq (s : ElasticsearchSettings) (u : ParsedUrl)
    (hu : urlsplit s.host = .ok u) : s.host_scheme = .ok u.scheme := by
  unfold ElasticsearchSettings.host_scheme
  rw [hu]
  rfl

/-- When the host parses, `host_name` succeeds with the parsed hostname. -/
theorem host_name_eq (s : ElasticsearchSettings) (u : ParsedUrl)
    (hu : urlsplit s.host = .ok u) : s.host_name = .ok (urlHostname u.netloc) := by
  unfold ElasticsearchSettings.host_name
  rw [hu]
  rfl

/-- When the host parses and its port is valid, `host_port` succeeds with the
explicit port (truthiness: an explicit `0` falls back) or the scheme default. -/
theorem host_port_eq (s : ElasticsearchSettings) (u : ParsedUrl) (po : Option Nat)
    (hu : urlsplit s.host = .ok u) (hp : urlPort u.netloc = .ok po) :
    s.host_port = .ok (po.elim (if u.scheme = "https" then 443 else 80)
      (fun n => if n = 0 then (if u.scheme = "https" then 443 else 80) else n)) := by
  unfold ElasticsearchSettings.host_port
  rw [hu]
  show (urlPort u.netloc >>= _) = _
  rw [hp]
  simp only [bind, Except.bind]
  cases po with
  | none => simp [pure, Except.pure, beq_iff_eq]
  | some n =>
    by_cases h : n = 0 <;> simp [h, pure, Except.pure, beq_iff_eq]

/-- A single operation step leaves the settings state unchanged. -/
theorem runOp_fst (op : Op) (t : DocsManagerSettings) : (runOp op t).1 = t := by
  cases op <;> rfl

/-- The display of an optional secret depends only on its shape. -/
theorem optSecretRepr_congr {x y : Option SecretStr}
    (h : secretShape x = secretShape y) : optSecretRepr x = optSecretRepr y := by
  cases x with
  | none =>
    cases y with
    | none => rfl
    | some b =>
      exfalso
      by_cases hb : b.secret == ""
      · simp [secretShape, hb] at h
      · simp [secretShape, hb] at h
  | some a =>
    cases y with
    | none =>
      exfalso
      by_cases ha : a.secret == ""
      · simp [secretShape, ha] at h
      · simp [secretShape, ha] at h
    | some b =>
      by_cases ha : a.secret == "" <;> by_cases hb : b.secret == "" <;>
        simp [secretShape, ha, hb, optSecretRepr, SecretStr.display] at h ⊢

/-! ## The claims -/

/-- C1: constructing `ElasticsearchAuthenticationSettings` fails exactly when
the fields mix methods — `api_key` set (truthy) together with `username` or
`password`, or `username` set without `password`, or `password` set without
`username`; every other combination, including no credential at all,
succeeds. -/
theorem claim_C1 (u : Option String) (p k : Option SecretStr) :
    (ElasticsearchAuthenticationSettings.construct u p k).isOk =
      !((truthySecret k && (truthyStr u || truthySecret p)) ||
        (truthyStr u && !truthySecret p) ||
        (truthySecret p && !truthyStr u)) := by
  unfold ElasticsearchAuthenticationSettings.construct
    ElasticsearchAuthenticationSettings.validate_authentication
  cases hk : truthySecret k <;> cases hu : truthyStr u <;> cases hp : truthySecret p <;>
    simp [hk, hu, hp, Except.isOk, Except.toBool]

/-- C5: `index_pattern` is the concatenation `index_prefix ++ "-*"`; for the
default prefix `kbmcp-docs.*` it is `kbmcp-docs.*-*`. -/
theorem claim_C5 :
    (∀ s : ElasticsearchSettings, s.index_pattern = s.index_prefix ++ "-*") ∧
    (ElasticsearchSettings.index_pattern
      ⟨"https://localhost:9200", 600, "kbmcp-docs.*", 200, 10485760, ⟨none, none, none⟩⟩ =
      "kbmcp-docs.*-*") :=
  ⟨fun _ => rfl, rfl⟩

/-- C7: no operation of the settings module mutates a constructed settings
tree — running any sequence of operations leaves every field at its
construction-time value. -/
theorem claim_C7 (ops : List Op) (t : DocsManagerSettings) : runOps ops t = t := by
  induction ops generalizing t with
  | nil => rfl
  | cons op rest ih =>
    show runOps rest (runOp op t).1 = t
    rw [runOp_fst]
    exact ih t

/-- C9: constructing `ElasticsearchSettings` validates nothing about `host`
(`validate_host` is `return self`): for every string, construction succeeds
and stores the string verbatim. -/
theorem claim_C9 (host : String) (rt : Int) (ip : String) (bmi bmb : Int)
    (a : ElasticsearchAuthenticationSettings) :
    ElasticsearchSettings.construct host rt ip bmi bmb a =
      .ok ⟨host, rt, ip, bmi, bmb, a⟩ :=
  rfl

/-- C2: on every settings value whose authentication passed validation, the
client-connection view is exactly the fixed connection mapping plus the
spec's (unordered) authentication-key selection: `api_key` when `api_key` is
set, `basic_auth` when `username` and `password` are both set, neither
otherwise. -/
theorem claim_C2 (s : ElasticsearchSettings)
    (h : (s.authentication.validate_authentication).isOk = true) :
    s.to_client_settings = clientViewSpec s := by
  unfold ElasticsearchSettings.to_client_settings clientViewSpec clientAuthSpec
    ElasticsearchSettings.get_auth_dict
  revert h
  unfold ElasticsearchAuthenticationSettings.validate_authentication
  cases hk : truthySecret s.authentication.api_key <;>
    cases hu : truthyStr s.authentication.username <;>
    cases hp : truthySecret s.authentication.password <;>
      simp [hk, hu, hp, Except.isOk, Except.toBool]

/-- Closed instance of C2 at an api-key-only configuration. -/
theorem claim_C2_witness :
    ElasticsearchSettings.to_client_settings
      ⟨"https://es.internal:9243", 600, "docs", 200, 10485760,
        ⟨none, none, some ⟨"abc123"⟩⟩⟩ =
    clientViewSpec
      ⟨"https://es.internal:9243", 600, "docs", 200, 10485760,
        ⟨none, none, some ⟨"abc123"⟩⟩⟩ :=
  claim_C2 _ (by decide)

/-- C3 (amended): when `host` parses as a URL with a valid port, the derived
accessors return the URL's scheme and hostname, and the port when it is
present and non-zero, with the scheme default (443 for https, else 80) when
the port is absent — and also, by Python truthiness, when it is an explicit
`0`. -/
theorem claim_C3_amended (s : ElasticsearchSettings) (u : ParsedUrl) (po : Option Nat)
    (hu : urlsplit s.host = .ok u) (hp : urlPort u.netloc = .ok po) :
    s.host_scheme = .ok u.scheme ∧
    s.host_name = .ok (urlHostname u.netloc) ∧
    s.host_port = .ok (po.elim (if u.scheme = "https" then 443 else 80)
      (fun n => if n = 0 then (if u.scheme = "https" then 443 else 80) else n)) :=
  ⟨host_scheme_eq s u hu, host_name_eq s u hu, host_port_eq s u po hu hp⟩

/-- C3 fails as stated at an explicit port `0`: the URL
`http://example.com:0` has explicit port `0`, but `host_port` is `80`. -/
theorem claim_C3_counterexample :
    urlsplit "http://example.com:0" = .ok ⟨"http", "example.com:0"⟩ ∧
    urlPort "example.com:0" = .ok (some 0) ∧
    ElasticsearchSettings.host_port
      ⟨"http://example.com:0", 600, "kbmcp-docs.*", 200, 10485760, ⟨none, none, none⟩⟩ =
      .ok 80 ∧
    (80 : Nat) ≠ 0 :=
  ⟨rfl, rfl, rfl, by decide⟩

/-- Closed instances of C3 at the spec's two example hosts. -/
theorem claim_C3_witness :
    ElasticsearchSettings.host_scheme
      ⟨"https://example.com", 600, "kbmcp-docs.*", 200, 10485760, ⟨none, none, none⟩⟩ =
      .ok "https" ∧
    ElasticsearchSettings.host_name
      ⟨"https://example.com", 600, "kbmcp-docs.*", 200, 10485760, ⟨none, none, none⟩⟩ =
      .ok (some "example.com") ∧
    ElasticsearchSettings.host_port
      ⟨"https://example.com", 600, "kbmcp-docs.*", 200, 10485760, ⟨none, none, none⟩⟩ =
      .ok 443 ∧
    ElasticsearchSettings.host_port
      ⟨"http://example.com:8080", 600, "kbmcp-docs.*", 200, 10485760, ⟨none, none, none⟩⟩ =
      .ok 8080 := by
  have h1 := claim_C3_amended
    ⟨"https://example.com", 600, "kbmcp-docs.*", 200, 10485760, ⟨none, none, none⟩⟩
    ⟨"https", "example.com"⟩ none rfl rfl
  have h2 := claim_C3_amended
    ⟨"http://example.com:8080", 600, "kbmcp-docs.*", 200, 10485760, ⟨none, none, none⟩⟩
    ⟨"http", "example.com:8080"⟩ (some 8080) rfl rfl
  exact ⟨h1.1, by simpa using h1.2.1, by simpa using h1.2.2, by simpa using h2.2.2⟩

/-- C4 (amended): the derived accessors are pure functions of the settings;
`index_pattern`, `get_auth_dict` and `to_client_settings` are total, and the
host-derived accessors (`host_port`, `host_scheme`, `host_name`,
`to_crawler_settings`) all succeed whenever `host` parses as a URL with a
valid port — but construction does not validate `host`, so on a malformed
host they can raise. -/
theorem claim_C4_amended (s : ElasticsearchSettings) (u : ParsedUrl) (po : Option Nat)
    (hu : urlsplit s.host = .ok u) (hp : urlPort u.netloc = .ok po) :
    s.host_port.isOk = true ∧ s.host_scheme.isOk = true ∧
    s.host_name.isOk = true ∧ s.to_crawler_settings.isOk = true := by
  have h1 := host_port_eq s u po hu hp
  refine ⟨by rw [h1]; rfl, by rw [host_scheme_eq s u hu]; rfl,
    by rw [host_name_eq s u hu]; rfl, ?_⟩
  unfold ElasticsearchSettings.to_crawler_settings
  rw [h1]
  rfl

/-- C4 fails as stated: a settings value that passed construction-time
validation (authentication valid, `validate_host` a no-op) on which
`host_port` — and with it `to_crawler_settings` — raises `ValueError`. -/
theorem claim_C4_counterexample :
    (ElasticsearchAuthenticationSettings.construct none none none).isOk = true ∧
    ElasticsearchSettings.construct "http://example.com:notaport" 600 "kbmcp-docs.*"
      200 10485760 ⟨none, none, none⟩ =
      .ok ⟨"http://example.com:notaport", 600, "kbmcp-docs.*", 200, 10485760,
        ⟨none, none, none⟩⟩ ∧
    ElasticsearchSettings.host_port
      ⟨"http://example.com:notaport", 600, "kbmcp-docs.*", 200, 10485760,
        ⟨none, none, none⟩⟩ =
      .error "Port could not be cast to integer value as 'notaport'" ∧
    (ElasticsearchSettings.to_crawler_settings
      ⟨"http://example.com:notaport", 600, "kbmcp-docs.*", 200, 10485760,
        ⟨none, none, none⟩⟩).isOk = false :=
  ⟨rfl, rfl, rfl, rfl⟩

/-- Closed instance of C4 (amended) at the default host. -/
theorem claim_C4_witness :
    (ElasticsearchSettings.host_port
      ⟨"https://localhost:9200", 600, "kbmcp-docs.*", 200, 10485760,
        ⟨none, none, none⟩⟩).isOk = true ∧
    (ElasticsearchSettings.to_crawler_settings
      ⟨"https://localhost:9200", 600, "kbmcp-docs.*", 200, 10485760,
        ⟨none, none, none⟩⟩).isOk = true := by
  have h := claim_C4_amended
    ⟨"https://localhost:9200", 600, "kbmcp-docs.*", 200, 10485760, ⟨none, none, none⟩⟩
    ⟨"https", "localhost:9200"⟩ (some 9200) rfl rfl
  exact ⟨h.1, h.2.2.2⟩

/-- C6 (amended): revealing a secret twice gives the same plaintext, and
every textual rendering (`str`, `repr`) and the serialized dump of the
settings tree are independent of the secret plaintexts — replacing the
secrets by any others of the same display shape (absent / empty /
non-empty) leaves every rendering unchanged, the secrets appearing only as
the fixed placeholder.  (As literally stated the claim fails: a rendering
can contain the plaintext by coincidence, e.g. when the password equals the
non-secret username.) -/
theorem claim_C6_amended (t : DocsManagerSettings) (pw ak : Option SecretStr)
    (hpw : secretShape pw = secretShape t.elasticsearch.authentication.password)
    (hak : secretShape ak = secretShape t.elasticsearch.authentication.api_key) :
    (t.elasticsearch.authentication.password.map SecretStr.get_secret_value =
      t.elasticsearch.authentication.password.map SecretStr.get_secret_value) ∧
    strDocsManagerSettings (setTreeSecrets t pw ak) = strDocsManagerSettings t ∧
    reprDocsManagerSettings (setTreeSecrets t pw ak) = reprDocsManagerSettings t ∧
    dumpElasticsearch (setTreeSecrets t pw ak).elasticsearch =
      dumpElasticsearch t.elasticsearch := by
  have hrepr : reprAuth { t.elasticsearch.authentication with password := pw, api_key := ak } =
      reprAuth t.elasticsearch.authentication := by
    unfold reprAuth
    rw [optSecretRepr_congr hpw, optSecretRepr_congr hak]
  refine ⟨rfl, ?_, ?_, ?_⟩ <;>
    simp [strDocsManagerSettings, reprDocsManagerSettings, reprElasticsearch,
      setTreeSecrets, dumpElasticsearch, dumpAuth, hrepr]

set_option maxRecDepth 40000 in
/-- C6 fails as literally stated: on a validated tree whose password equals
the username, the `str` rendering of the tree contains the password's
plaintext. -/
theorem claim_C6_counterexample :
    (ElasticsearchAuthenticationSettings.validate_authentication
      ⟨some "supersecret", some ⟨"supersecret"⟩, none⟩).isOk = true ∧
    SecretStr.get_secret_value ⟨"supersecret"⟩ = "supersecret" ∧
    ("supersecret".toList <:+: (strDocsManagerSettings
      ⟨⟨.stdio⟩, ⟨"INFO", "%(message)s", none⟩,
       ⟨"https://localhost:9200", 600, "kbmcp-docs.*", 200, 10485760,
        ⟨some "supersecret", some ⟨"supersecret"⟩, none⟩⟩,
       ⟨"kbmcp-"⟩, ⟨"kbmcp-docs."⟩, ⟨"kbmcp-memories."⟩,
       ⟨"search-default-ingestion", "ghcr.io/strawgate/es-crawler:main"⟩⟩).toList) :=
  ⟨by decide, rfl, by decide⟩

/-- Closed instance of C6 (amended): swapping one non-empty password
plaintext for another leaves the tree's rendering unchanged. -/
theorem claim_C6_witness :
    strDocsManagerSettings (setTreeSecrets
      ⟨⟨.stdio⟩, ⟨"INFO", "%(message)s", none⟩,
       ⟨"https://localhost:9200", 600, "kbmcp-docs.*", 200, 10485760,
        ⟨some "bob", some ⟨"hunter2"⟩, none⟩⟩,
       ⟨"kbmcp-"⟩, ⟨"kbmcp-docs."⟩, ⟨"kbmcp-memories."⟩,
       ⟨"search-default-ingestion", "ghcr.io/strawgate/es-crawler:main"⟩⟩
      (some ⟨"swordfish"⟩) none) =
    strDocsManagerSettings
      ⟨⟨.stdio⟩, ⟨"INFO", "%(message)s", none⟩,
       ⟨"https://localhost:9200", 600, "kbmcp-docs.*", 200, 10485760,
        ⟨some "bob", some ⟨"hunter2"⟩, none⟩⟩,
       ⟨"kbmcp-"⟩, ⟨"kbmcp-docs."⟩, ⟨"kbmcp-memories."⟩,
       ⟨"search-default-ingestion", "ghcr.io/strawgate/es-crawler:main"⟩⟩ :=
  (claim_C6_amended _ (some ⟨"swordfish"⟩) none (by decide) (by decide)).2.1

/-- C8 (amended): group constructors run eagerly in module-definition order
(authentication, transport, logging, elasticsearch, then the infallible
groups) and the first failure raises immediately, so in every multi-failure
combination the first-evaluated failing group's error alone surfaces: an
authentication error pre-empts everything; with authentication valid, a
transport error alone surfaces even when the elasticsearch group would also
fail; with both valid, an elasticsearch error surfaces; and with no failing
group, construction assembles the tree. -/
theorem claim_C8_amended :
    (∀ (env : Env) (pid : Nat) (e : String),
      buildAuth env = .error e → loadRoot env pid = .error e) ∧
    (∀ (env : Env) (pid : Nat) (auth : ElasticsearchAuthenticationSettings) (e : String),
      buildAuth env = .ok auth → buildTransport env = .error e →
      loadRoot env pid = .error e) ∧
    (∀ (env : Env) (pid : Nat) (auth : ElasticsearchAuthenticationSettings)
        (mcps : TransportSettings) (e : String),
      buildAuth env = .ok auth → buildTransport env = .ok mcps →
      buildElasticsearch env auth = .error e →
      loadRoot env pid = .error e) ∧
    (∀ (env : Env) (pid : Nat) (auth : ElasticsearchAuthenticationSettings)
        (mcps : TransportSettings) (es : ElasticsearchSettings),
      buildAuth env = .ok auth → buildTransport env = .ok mcps →
      buildElasticsearch env auth = .ok es →
      loadRoot env pid = .ok ⟨mcps, buildLogging env pid, es,
        ⟨env.base_index_prefix.getD "kbmcp-"⟩,
        ⟨env.kb_docs_index_prefix.getD "kbmcp-docs."⟩,
        ⟨env.memory_index_prefix.getD "kbmcp-memories."⟩,
        ⟨env.crawler_es_pipeline.getD "search-default-ingestion",
         env.crawler_docker_image.getD "ghcr.io/strawgate/es-crawler:main"⟩⟩) := by
  refine ⟨?_, ?_, ?_, ?_⟩
  · intro env pid e h
    unfold loadRoot
    rw [h]
    rfl
  · intro env pid auth e h1 h2
    unfold loadRoot
    rw [h1]
    show (buildTransport env >>= _) = _
    rw [h2]
    rfl
  · intro env pid auth mcps e h1 h2 h3
    unfold loadRoot
    rw [h1]
    show (buildTransport env >>= _) = _
    rw [h2]
    show (buildElasticsearch env auth >>= _) = _
    rw [h3]
    rfl
  · intro env pid auth mcps es h1 h2 h3
    unfold loadRoot
    rw [h1]
    show (buildTransport env >>= _) = _
    rw [h2]
    show (buildElasticsearch env auth >>= _) = _
    rw [h3]
    rfl

/-- C8 fails as stated: with both the authentication group and the transport
group invalid, the surfaced error is exactly the authentication error and
does not wrap (contain) the transport error. -/
theorem claim_C8_counterexample :
    loadRoot ⟨some "bogus", none, none, none, none, none, none, none, none,
      some "u", none, some "k", none, none, none, none, none⟩ 0 =
      .error "Cannot use both API key and basic authentication." ∧
    buildTransport ⟨some "bogus", none, none, none, none, none, none, none, none,
      some "u", none, some "k", none, none, none, none, none⟩ =
      .error "Input should be 'stdio' or 'sse'" ∧
    ¬ ("Input should be 'stdio' or 'sse'".toList <:+:
       "Cannot use both API key and basic authentication.".toList) :=
  ⟨rfl, rfl, by decide⟩

/-- Closed instances of C8 (amended): an authentication failure surfaces
alone, and — with authentication valid — a transport failure surfaces alone
even though the elasticsearch group (bad `ES_REQUEST_TIMEOUT`) would also
fail. -/
theorem claim_C8_witness :
    loadRoot ⟨none, none, none, none, none, none, none, none, none,
      some "user", none, some "key", none, none, none, none, none⟩ 42 =
      .error "Cannot use both API key and basic authentication." ∧
    loadRoot ⟨some "bogus", none, none, none, none, some "abc", none, none, none,
      none, none, none, none, none, none, none, none⟩ 0 =
      .error "Input should be 'stdio' or 'sse'" ∧
    (buildElasticsearch ⟨some "bogus", none, none, none, none, some "abc", none,
      none, none, none, none, none, none, none, none, none, none⟩
      ⟨none, none, none⟩).isOk = false :=
  ⟨claim_C8_amended.1 _ 42 _ rfl,
   claim_C8_amended.2.1 _ 0 ⟨none, none, none⟩ _ rfl rfl,
   rfl⟩

/-- C10: validation and auth-key selection use Python truthiness, treating
empty strings as absent: an empty username with a non-empty password fails
with "Password requires a username."; an empty api_key never conflicts with
basic credentials (construction outcome identical to api_key absent); and an
empty-string credential contributes no `api_key`/`basic_auth` key to the
client or crawler views. -/
theorem claim_C10 :
    (∀ p : String, p ≠ "" →
      ElasticsearchAuthenticationSettings.construct (some "") (some ⟨p⟩) none =
        .error "Password requires a username.") ∧
    (∀ (u : Option String) (p : Option SecretStr),
      (ElasticsearchAuthenticationSettings.construct u p (some ⟨""⟩)).isOk =
        (ElasticsearchAuthenticationSettings.construct u p none).isOk) ∧
    (∀ s : ElasticsearchSettings, s.authentication.api_key = some ⟨""⟩ →
      "api_key" ∉ s.get_auth_dict.map Prod.fst ∧
      "api_key" ∉ s.to_client_settings.map Prod.fst ∧
      ∀ l, s.to_crawler_settings = .ok l → "api_key" ∉ l.map Prod.fst) ∧
    (∀ s : ElasticsearchSettings,
      s.authentication.password = some ⟨""⟩ ∨ s.authentication.username = some "" →
      "basic_auth" ∉ s.get_auth_dict.map Prod.fst ∧
      "basic_auth" ∉ s.to_client_settings.map Prod.fst ∧
      ∀ l, s.to_crawler_settings = .ok l → "basic_auth" ∉ l.map Prod.fst) := by
  refine ⟨?_, ?_, ?_, ?_⟩
  · intro p hp
    unfold ElasticsearchAuthenticationSettings.construct
      ElasticsearchAuthenticationSettings.validate_authentication
    simp [truthyStr, truthySecret, hp]
  · intro u p
    unfold ElasticsearchAuthenticationSettings.construct
      ElasticsearchAuthenticationSettings.validate_authentication
    cases hu : truthyStr u <;> cases hp : truthySecret p <;>
      simp [hu, hp, truthySecret, Except.isOk, Except.toBool]
  · intro s hk
    have hk' : truthySecret s.authentication.api_key = false := by
      rw [hk]; rfl
    have hd : "api_key" ∉ s.get_auth_dict.map Prod.fst := by
      unfold ElasticsearchSettings.get_auth_dict
      rw [hk']
      by_cases hb : (truthyStr s.authentication.username &&
          truthySecret s.authentication.password) = true <;> simp [hb]
    refine ⟨hd, ?_, ?_⟩
    · unfold ElasticsearchSettings.to_client_settings
      simpa using hd
    · intro l hl
      unfold ElasticsearchSettings.to_crawler_settings at hl
      cases hhp : s.host_port with
      | error e => rw [hhp] at hl; exact absurd hl (by simp [Bind.bind, Except.bind])
      | ok n =>
        rw [hhp] at hl
        simp [Bind.bind, Except.bind, pure, Except.pure] at hl
        subst hl
        simpa using hd
  · intro s hb
    have hb' : (truthyStr s.authentication.username &&
        truthySecret s.authentication.password) = false := by
      rcases hb with h | h <;> rw [h] <;> simp [truthyStr, truthySecret]
    have hd : "basic_auth" ∉ s.get_auth_dict.map Prod.fst := by
      unfold ElasticsearchSettings.get_auth_dict
      rw [hb']
      by_cases hk : truthySecret s.authentication.api_key = true <;> simp [hk]
    refine ⟨hd, ?_, ?_⟩
    · unfold ElasticsearchSettings.to_client_settings
      simpa using hd
    · intro l hl
      unfold ElasticsearchSettings.to_crawler_settings at hl
      cases hhp : s.host_port with
      | error e => rw [hhp] at hl; exact absurd hl (by simp [Bind.bind, Except.bind])
      | ok n =>
        rw [hhp] at hl
        simp [Bind.bind, Except.bind, pure, Except.pure] at hl
        subst hl
        simpa using hd

/-- Closed instances of C10's parts at concrete credentials. -/
theorem claim_C10_witness :
    ElasticsearchAuthenticationSettings.construct (some "") (some ⟨"pw"⟩) none =
      .error "Password requires a username." ∧
    (ElasticsearchAuthenticationSettings.construct (some "u") (some ⟨"pw"⟩)
      (some ⟨""⟩)).isOk =
      (ElasticsearchAuthenticationSettings.construct (some "u") (some ⟨"pw"⟩) none).isOk ∧
    "api_key" ∉ (ElasticsearchSettings.get_auth_dict
      ⟨"https://localhost:9200", 600, "kbmcp-docs.*", 200, 10485760,
        ⟨none, none, some ⟨""⟩⟩⟩).map Prod.fst ∧
    "basic_auth" ∉ (ElasticsearchSettings.get_auth_dict
      ⟨"https://localhost:9200", 600, "kbmcp-docs.*", 200, 10485760,
        ⟨some "", some ⟨"pw"⟩, none⟩⟩).map Prod.fst :=
  ⟨claim_C10.1 "pw" (by decide),
   claim_C10.2.1 (some "u") (some ⟨"pw"⟩),
   (claim_C10.2.2.1 _ rfl).1,
   (claim_C10.2.2.2 _ (Or.inr rfl)).1⟩

end ESDocMCP
